import Mathlib

/-!
Verification development for the NEXUS_ENA data pipeline.

The repository consists of four Python source files:
  - src/lambda/data_collector/lambda_function.py  (API data collector)
  - src/lambda/api_handler/lambda_function.py     (HTTP API handler)
  - src/ecs/analysis/run_analysis.py              (weekly analyzer)
  - src/ecs/data_collector/sftp_data_collector.py (SFTP collector)

Each component is shallowly embedded below: outcomes of external calls
(S3, DynamoDB, SSM, SFTP, the model API) are supplied through explicit
environment records, and the control flow of each Python function is
mirrored by a Lean function over those environments.  Numeric data is
modelled with the rationals; the two numeric kernels whose exact values
are irrational in general (pandas sample standard deviation and the
Pearson correlation coefficient) are taken as function parameters, since
no property proved here depends on their values.
-/

namespace NexusEna

/-! ## Numeric helpers: pandas column aggregations over the rationals

A pandas numeric column is modelled as the list of its non-null values;
`mean`, `min`, `max`, `sum` skip nulls (skipna), which the embedding
reflects by aggregating over that list.  The aggregations of an empty
column produce NaN in pandas; here they give 0, standing in for NaN
(none of the proved properties distinguishes the two). -/

def meanQ (l : List ℚ) : ℚ := l.sum / l.length

def minQ : List ℚ → ℚ
  | [] => 0
  | x :: xs => xs.foldl min x

def maxQ : List ℚ → ℚ
  | [] => 0
  | x :: xs => xs.foldl max x

/-- pandas `.round(2)`.  (pandas rounds half to even while `round` rounds
half upward; they agree except on exact ties, and only the monotonicity
of rounding is used in the proofs below.) -/
def round2 (x : ℚ) : ℚ := ((round (x * 100) : ℤ) : ℚ) / 100

/-- pandas `.round(3)`. -/
def round3 (x : ℚ) : ℚ := ((round (x * 1000) : ℤ) : ℚ) / 1000

/-- pandas `Series.pct_change().std()`-feeding list: consecutive relative
changes; the leading NaN produced by pandas is dropped (std skips it). -/
def pctChange : List ℚ → List ℚ
  | [] => []
  | [_] => []
  | x :: y :: rest => (y - x) / x :: pctChange (y :: rest)

/-! ## Storage models shared by all components -/

/-- A DynamoDB attribute value (string, number, boolean, or null). -/
inductive Attr
  | s (v : String)
  | n (v : Int)
  | b (v : Bool)
  | null
deriving DecidableEq

/-- A DynamoDB item: an association list from attribute names to values. -/
def Item : Type := List (String × Attr)

instance : DecidableEq Item := inferInstanceAs (DecidableEq (List (String × Attr)))

/-- Attribute lookup on an item. -/
def Item.attr (it : Item) (name : String) : Option Attr :=
  List.lookup name it

/-- One S3 `put_object` call: the object key and the requested
server-side-encryption mode. -/
structure S3Put where
  key : String
  sse : String
deriving DecidableEq

/-- `ttl` value written by the collectors: epoch seconds 90 days after
`now` (`int((datetime.utcnow() + timedelta(days=90)).timestamp())`). -/
def ttlOf (nowEpoch : Int) : Int := nowEpoch + 90 * 86400

namespace DataCollector

/-! ## src/lambda/data_collector/lambda_function.py

The environment captures the outcome of every external interaction the
handler performs: what each `collect_*_data` call yields (`none` models
both a missing API key and a swallowed collection exception, both of
which return None; `some n` models a DataFrame with n rows), whether
`put_object` and `put_item` raise, whether `DataCollector.__init__`
(key loading) succeeds, and the clock readings used inside the run. -/

structure Env where
  /-- Result of the collect call for a source: `none` = returned None,
  `some n` = DataFrame with n rows. -/
  collect : String → Option Nat
  /-- save_to_s3: `put_object` raises for this source. -/
  s3Fails : String → Bool
  /-- update_metadata: DynamoDB `put_item` raises (caught and logged). -/
  metadataFails : Bool
  /-- DataCollector() construction (load_api_keys) succeeds. -/
  initOk : Bool
  /-- strftime components of `datetime.utcnow()`. -/
  year : String
  month : String
  day : String
  /-- `now.strftime(%Y%m%d_%H%M%S)` used in the object key. -/
  ts : String
  /-- `datetime.utcnow().isoformat()`. -/
  isoNow : String
  /-- `int(datetime.utcnow().timestamp())`, for the ttl computation. -/
  nowEpoch : Int
  /-- ENVIRONMENT variable. -/
  environment : String

/-- The DATA_SOURCES configuration table (name, enabled). -/
def dataSources : List (String × Bool) :=
  [("lseg", true), ("weather", true), ("economic", true)]

/-- Per-source result dict built by `process_data_source`. -/
structure SourceResult where
  source : String
  success : Bool
  record_count : Nat
  file_key : Option String
  error : Option String
deriving DecidableEq

/-- `save_to_s3` object key:
`raw-data/year=YYYY/month=MM/day=DD/{source}_{timestamp}.parquet`. -/
def rawDataKey (y m d source ts : String) : String :=
  "raw-data/year=" ++ y ++ "/month=" ++ m ++ "/day=" ++ d ++ "/" ++
    source ++ "_" ++ ts ++ ".parquet"

/-- The string fed to md5 for the `data_hash` attribute; the md5 digest
itself is abstracted to its input (only the presence and optionality of
the attribute matter to the claims). -/
def dataHashInput (source isoNow : String) (count : Nat) : String :=
  source ++ "_" ++ isoNow ++ "_" ++ toString count

/-- The item written by `DataCollector.update_metadata`. -/
def update_metadata_item (env : Env) (source : String)
    (fileKey : Option String) (count : Nat) (success : Bool) : Item :=
  [("data_source", Attr.s source),
   ("timestamp", Attr.s env.isoNow),
   ("file_key", match fileKey with | some k => Attr.s k | none => Attr.null),
   ("record_count", Attr.n count),
   ("success", Attr.b success),
   ("environment", Attr.s env.environment),
   ("data_hash", Attr.s (dataHashInput source env.isoNow count)),
   ("ttl", Attr.n (ttlOf env.nowEpoch))] ++
  (if success then [] else
    [("error_message", Attr.s ("Collection failed for " ++ source))])

/-- Effect of one `update_metadata` call: the items that actually land in
the table (empty when `put_item` raises — the exception is caught and
only logged). -/
def update_metadata (env : Env) (source : String)
    (fileKey : Option String) (count : Nat) (success : Bool) : List Item :=
  if env.metadataFails then []
  else [update_metadata_item env source fileKey count success]

/-- The result dict as initialised at the top of process_data_source. -/
def baseResult (source : String) : SourceResult :=
  { source := source, success := false, record_count := 0,
    file_key := none, error := none }

/-- `DataCollector.process_data_source`: the result dict plus the S3 puts
and metadata writes performed along the way. -/
def process_data_source (env : Env) (source : String) :
    SourceResult × List S3Put × List Item :=
  let base : SourceResult := baseResult source
  if (List.lookup source dataSources).getD false = false then
    ({ base with error := some ("Data source " ++ source ++ " is disabled") },
     [], [])
  else
    match env.collect source with
    | none =>
        ({ base with error := some ("No data collected from " ++ source) },
         [], [])
    | some n =>
        if n = 0 then
          ({ base with error := some ("No data collected from " ++ source) },
           [], [])
        else if env.s3Fails source then
          -- save_to_s3 raised DataCollectionError; the except branch
          -- records a failure metadata item with file_key=None, count=0
          ({ base with error := some "S3 save failed" }, [],
           update_metadata env source none 0 false)
        else
          let key := rawDataKey env.year env.month env.day source env.ts
          ({ base with
              success := true
              record_count := n
              file_key := some key },
           [{ key := key, sse := "AES256" }],
           update_metadata env source (some key) n true)

/-- Response body assembled by `lambda_handler`. -/
structure Response where
  statusCode : Nat
  successful_sources : Nat
  total_sources_processed : Nat
  total_records_collected : Nat
  results : List SourceResult
deriving DecidableEq

/-- The body of `lambda_handler` (its try block after DataCollector()
construction succeeded): processes every enabled source in order,
tallies successes and record counts, and answers 200 when at least one
source succeeded, 500 otherwise. -/
def lambda_handler_body (env : Env) : Response × List S3Put × List Item :=
  let runs := (dataSources.filter (fun p => p.2)).map
    (fun p => process_data_source env p.1)
  let results := runs.map (fun r => r.1)
  let successful := results.countP (fun r => r.success)
  let total := ((results.filter (fun r => r.success)).map
    (fun r => r.record_count)).sum
  ({ statusCode := if 0 < successful then 200 else 500,
     successful_sources := successful,
     total_sources_processed := results.length,
     total_records_collected := total,
     results := results },
   runs.flatMap (fun r => r.2.1),
   runs.flatMap (fun r => r.2.2))

/-- `lambda_handler`: a DataCollector() construction failure is caught
at the top level into a plain 500; otherwise the body runs. -/
def lambda_handler (env : Env) : Response × List S3Put × List Item :=
  if env.initOk = false then
    ({ statusCode := 500, successful_sources := 0,
       total_sources_processed := 0, total_records_collected := 0,
       results := [] }, [], [])
  else lambda_handler_body env

end DataCollector

namespace LSEGSFTPCollector

/-! ## src/ecs/data_collector/sftp_data_collector.py

The environment captures: whether `ssh_client.connect(...)` succeeds,
whether `ssh_client.open_sftp()` succeeds, the files listed for today
(already filtered to names containing the date and ending in .csv, as
`list_available_files` does), which per-file downloads/parses raise, the
row counts of the parsed CSVs, and the clock readings. -/

structure Env where
  /-- `ssh_client.connect` succeeds (TCP/SSH session established). -/
  sshConnectOk : Bool
  /-- `ssh_client.open_sftp()` succeeds (SFTP channel established). -/
  openSftpOk : Bool
  /-- Result of `list_available_files`. -/
  files : List String
  /-- `download_and_process_file` raises for this file (caught: the file
  is skipped and the function returns None). -/
  fileFails : String → Bool
  /-- Record count of the parsed CSV for this file. -/
  rows : String → Nat
  /-- Components of `datetime.now().strftime(%Y/%m/%d)`. -/
  y : String
  m : String
  d : String
  /-- `datetime.now().strftime(%Y-%m-%d)`. -/
  dateStr : String
  /-- `datetime.utcnow().isoformat()`. -/
  isoNow : String

/-- Which connections are open, and which were ever opened, at a point of
the run. -/
structure ConnState where
  sshEverOpened : Bool
  sftpEverOpened : Bool
  sshOpen : Bool
  sftpOpen : Bool
deriving DecidableEq

/-- Python str.replace at character level (every occurrence of `pat` is
replaced by `rep`); the fuel argument is the input length, consumed one
character per step, making the recursion structural. -/
def replaceCharsFuel (pat rep : List Char) : Nat → List Char → List Char
  | _, [] => []
  | 0, l => l
  | fuel + 1, c :: cs =>
    if pat ≠ [] ∧ (c :: cs).take pat.length = pat then
      rep ++ replaceCharsFuel pat rep fuel (cs.drop (pat.length - 1))
    else c :: replaceCharsFuel pat rep fuel cs

/-- Python `s.replace(pat, rep)`. -/
def pyReplace (s pat rep : String) : String :=
  { data := replaceCharsFuel pat.data rep.data s.data.length s.data }

/-- Object key built in `download_and_process_file`:
`raw-data/{Y}/{m}/{d}/lseg_{file with .csv replaced by .parquet}` —
note: plain date segments, not `year=`/`month=`/`day=` key-value
partitions. -/
def sftpKey (y m d file : String) : String :=
  "raw-data/" ++ y ++ "/" ++ m ++ "/" ++ d ++ "/lseg_" ++
    pyReplace file ".csv" ".parquet"

/-- The item written by `LSEGSFTPCollector.update_metadata`: keyed by
`file_id`, with no `data_source`, no boolean `success`, no
`environment` and no `ttl` attribute. -/
def update_metadata_item (env : Env) (filename s3Key : String)
    (count : Nat) : Item :=
  [("file_id", Attr.s filename),
   ("collection_date", Attr.s env.dateStr),
   ("s3_location", Attr.s s3Key),
   ("record_count", Attr.n count),
   ("status", Attr.s "completed"),
   ("timestamp", Attr.s env.isoNow),
   ("source", Attr.s "lseg_sftp")]

/-- Result of a whole `collect_daily_data` run. -/
structure Run where
  /-- ok = run returned normally (with the processed keys); error = the
  exception that propagated to the caller. -/
  outcome : Except String (List String)
  conns : ConnState
  uploads : List S3Put
  metaWrites : List Item

/-- `LSEGSFTPCollector.collect_daily_data`.  Mirrors the Python control
flow: `connect_sftp` either raises before anything is opened (connect
fails), raises after the SSH session is established (open_sftp fails; the
local variables in collect_daily_data are still None, so the finally
block closes nothing), or returns both; the per-file loop skips failing
files; the finally block closes whatever the locals hold. -/
def collect_daily_data (env : Env) : Run :=
  if env.sshConnectOk = false then
    { outcome := Except.error "SFTP connection failed",
      conns := { sshEverOpened := false, sftpEverOpened := false,
                 sshOpen := false, sftpOpen := false },
      uploads := [], metaWrites := [] }
  else if env.openSftpOk = false then
    -- connect_sftp raised after ssh_client.connect succeeded; the
    -- finally block in collect_daily_data sees ssh_client = None and
    -- closes nothing, so the SSH session stays open
    { outcome := Except.error "SFTP connection failed",
      conns := { sshEverOpened := true, sftpEverOpened := false,
                 sshOpen := true, sftpOpen := false },
      uploads := [], metaWrites := [] }
  else
    let processed := env.files.filter (fun f => env.fileFails f = false)
    { outcome := Except.ok (processed.map
        (fun f => sftpKey env.y env.m env.d f)),
      conns := { sshEverOpened := true, sftpEverOpened := true,
                 sshOpen := false, sftpOpen := false },
      uploads := processed.map
        (fun f => { key := sftpKey env.y env.m env.d f, sse := "AES256" }),
      metaWrites := processed.map
        (fun f => update_metadata_item env f (sftpKey env.y env.m env.d f)
          (env.rows f)) }

end LSEGSFTPCollector

namespace APIHandler

/-! ## src/lambda/api_handler/lambda_function.py

Each routed endpoint performs one DynamoDB scan/query or S3 list; the
environment records whether each of those backend calls succeeds, plus
the two health probes.  Response bodies are modelled just deeply enough
to state the claims (the 404 body carries the advertised endpoint
list). -/

structure Env where
  /-- `table.scan` succeeds (used by data-sources status and summary). -/
  scanOk : Bool
  /-- `table.query` succeeds (used by recent-data). -/
  queryOk : Bool
  /-- `s3.list_objects_v2` succeeds (used by files). -/
  listOk : Bool
  /-- the two health probes of `get_health_check`. -/
  dynamoHealthy : Bool
  s3Healthy : Bool

/-- Python `s.startswith(pre)`, at character level. -/
def startsWithB (s pre : String) : Bool :=
  s.data.take pre.data.length == pre.data

/-- Python `s.endswith(suf)`, at character level. -/
def endsWithB (s suf : String) : Bool :=
  decide (suf.data.length ≤ s.data.length) &&
    s.data.drop (s.data.length - suf.data.length) == suf.data

/-- Python `s.split(sep)` over a single-character separator. -/
def splitOnChar (sep : Char) : List Char → List (List Char)
  | [] => [[]]
  | c :: cs =>
    match splitOnChar sep cs with
    | [] => [[]]
    | acc :: rest =>
        if c = sep then [] :: acc :: rest else (c :: acc) :: rest

/-- Python `path.split(sep)` as a list of strings. -/
def pySplit (s : String) (sep : Char) : List String :=
  (splitOnChar sep s.data).map (fun l => { data := l })

/-- `APIHandler.get_cors_headers`. -/
def corsHeaders : List (String × String) :=
  [("Access-Control-Allow-Origin", "*"),
   ("Access-Control-Allow-Methods", "GET, POST, PUT, DELETE, OPTIONS"),
   ("Access-Control-Allow-Headers",
    "Content-Type, Authorization, X-Amz-Date, X-Api-Key, X-Amz-Security-Token"),
   ("Access-Control-Max-Age", "86400")]

/-- The `available_endpoints` list in the 404 body. -/
def availableEndpoints : List String :=
  ["/health", "/api/data-sources", "/api/dashboard/summary",
   "/api/data-sources/{source}/recent", "/api/files"]

/-- Response body, modelled to the depth the claims need. -/
inductive Body
  | corsOk
  | health (status : String)
  | payload (route : String)
  | errorBody (route : String)
  | notFound (path method : String) (available : List String)
deriving DecidableEq

structure Response where
  statusCode : Nat
  headers : List (String × String)
  body : Body
deriving DecidableEq

/-- `create_response`: every response carries the CORS headers. -/
def create_response (statusCode : Nat) (body : Body) : Response :=
  { statusCode := statusCode, headers := corsHeaders, body := body }

/-- `lambda_handler`: OPTIONS short-circuits to 200; then the if/elif
route chain.  The recent-data route is matched by prefix and suffix
exactly as in the source (`path.startswith` / `path.endswith`), and the
source name is segment 3 of `path.split(sep)`. -/
def lambda_handler (env : Env) (method path : String) : Response :=
  if method = "OPTIONS" then
    create_response 200 Body.corsOk
  else if path = "/health" then
    let healthy := env.dynamoHealthy && env.s3Healthy
    create_response (if healthy then 200 else 503)
      (Body.health (if healthy then "healthy" else "unhealthy"))
  else if path = "/api/data-sources" then
    if env.scanOk then create_response 200 (Body.payload "data-sources")
    else create_response 500 (Body.errorBody "data-sources")
  else if path = "/api/dashboard/summary" then
    if env.scanOk then create_response 200 (Body.payload "summary")
    else create_response 500 (Body.errorBody "summary")
  else if startsWithB path "/api/data-sources/" && endsWithB path "/recent" then
    let source := (pySplit path '/').getD 3 ""
    if env.queryOk then create_response 200 (Body.payload ("recent:" ++ source))
    else create_response 500 (Body.errorBody ("recent:" ++ source))
  else if path = "/api/files" then
    if env.listOk then create_response 200 (Body.payload "files")
    else create_response 500 (Body.errorBody "files")
  else
    create_response 404 (Body.notFound path method availableEndpoints)

/-- The five routes as the specification declares them; the recent route
is the template `/api/data-sources/{source}/recent` with `{source}` an
arbitrary string (read as liberally as possible). -/
def declaredRoute (path : String) : Prop :=
  path = "/health" ∨ path = "/api/data-sources" ∨
  path = "/api/dashboard/summary" ∨ path = "/api/files" ∨
  ∃ source : String, path = "/api/data-sources/" ++ source ++ "/recent"

/-- The predicate the code actually uses for the recent route. -/
def codeRouteMatched (path : String) : Prop :=
  path = "/health" ∨ path = "/api/data-sources" ∨
  path = "/api/dashboard/summary" ∨ path = "/api/files" ∨
  (startsWithB path "/api/data-sources/" && endsWithB path "/recent") = true

end APIHandler

namespace EnergyMarketAnalyzer

/-! ## src/ecs/analysis/run_analysis.py

pandas DataFrames are modelled as a column-name list plus a list of rows
whose cells are optional (None = the cell is NaN/null).  Selecting a
column not in the column list models a KeyError; aggregations skip null
cells exactly as pandas skipna aggregations do.  Two numeric kernels are
irrational-valued in general and are therefore taken as parameters
everywhere: `std` (pandas sample standard deviation, also applied to the
NaN-or-zero guard around np.corrcoef) and `corr` (Pearson correlation);
none of the properties proved below depends on their values. -/

/-- One DataFrame row; a `none` cell is NaN/missing.  The `source`
column is named `src` (`source` is also the Python column name). -/
structure Row where
  data_type : Option String := none
  region : Option String := none
  price : Option ℚ := none
  demand : Option ℚ := none
  supply : Option ℚ := none
  src : Option String := none
  capacity : Option ℚ := none
  generation : Option ℚ := none
  temperature : Option ℚ := none
  wind_speed : Option ℚ := none
  tsStr : Option String := none
  indicator : Option String := none
  value : Option ℚ := none
deriving DecidableEq

/-- A DataFrame: declared columns and rows. -/
structure DF where
  cols : List String
  rows : List Row
deriving DecidableEq

def emptyDF : DF := { cols := [], rows := [] }

/-- String-valued cell of a row under a Python column name. -/
def Row.strField (r : Row) : String → Option String
  | "data_type" => r.data_type
  | "region" => r.region
  | "source" => r.src
  | "timestamp" => r.tsStr
  | "indicator" => r.indicator
  | _ => none

/-- `df[df[c] == v]` — raises (models KeyError) when `c` is not a
column. -/
def DF.filterEq (df : DF) (c v : String) : Except Unit DF :=
  if c ∈ df.cols then
    Except.ok { cols := df.cols,
                rows := df.rows.filter (fun r => r.strField c == some v) }
  else Except.error ()

/-- groupby keys: the distinct non-null values of a string column, in
order of first appearance. -/
def groupKeysStr (rows : List Row) (f : Row → Option String) : List String :=
  (rows.filterMap f).dedup

/-- analysis['summary'] (built by analyze_power_markets). -/
structure SummaryStats where
  avg_price : ℚ
  price_volatility : ℚ
  min_price : ℚ
  max_price : ℚ
  total_demand : ℚ
  total_supply : ℚ
deriving DecidableEq

/-- One region's entry of analysis['regional_analysis']. -/
structure RegionStats where
  price_mean : ℚ
  price_std : ℚ
  price_min : ℚ
  price_max : ℚ
  demand_mean : ℚ
  supply_mean : ℚ
deriving DecidableEq

/-- analysis['supply_demand'] (field `ratioAvg` models the Python key
avg_ratio). -/
structure SupplyDemandStats where
  ratioAvg : ℚ
  tight_markets : List String
deriving DecidableEq

/-- analysis['renewable_analysis']: per-source (capacity mean,
generation mean) and per-source mean capacity factor. -/
structure RenewableStats where
  generation_stats : List (String × (ℚ × ℚ))
  capacity_factors : List (String × ℚ)
deriving DecidableEq

/-- The analysis dict of analyze_power_markets.  The default value is
the initial dict (empty sub-dicts; the renewable_analysis key absent). -/
structure PMAnalysis where
  summary : Option SummaryStats := none
  regional_analysis : List (String × RegionStats) := []
  price_volatility : List (String × ℚ) := []
  supply_demand : Option SupplyDemandStats := none
  renewable_analysis : Option RenewableStats := none
deriving DecidableEq

/-- The overall-summary step: raises when price/demand/supply are not
columns (pandas KeyError on the first missing one). -/
def pmSummary (std : List ℚ → ℚ) (pp : DF) : Except Unit SummaryStats :=
  if "price" ∈ pp.cols ∧ "demand" ∈ pp.cols ∧ "supply" ∈ pp.cols then
    let ps := pp.rows.filterMap (fun r => r.price)
    Except.ok
      { avg_price := meanQ ps
        price_volatility := std ps
        min_price := minQ ps
        max_price := maxQ ps
        total_demand := (pp.rows.filterMap (fun r => r.demand)).sum
        total_supply := (pp.rows.filterMap (fun r => r.supply)).sum }
  else Except.error ()

/-- The `groupby(region).agg(...).round(2)` step; price/demand/supply
presence was already forced by the summary step that precedes it. -/
def pmRegional (std : List ℚ → ℚ) (pp : DF) :
    Except Unit (List (String × RegionStats)) :=
  if "region" ∈ pp.cols then
    Except.ok ((groupKeysStr pp.rows (fun r => r.region)).map (fun r =>
      let g := pp.rows.filter (fun row => row.region == some r)
      let ps := g.filterMap (fun row => row.price)
      (r, { price_mean := round2 (meanQ ps)
            price_std := round2 (std ps)
            price_min := round2 (minQ ps)
            price_max := round2 (maxQ ps)
            demand_mean := round2 (meanQ (g.filterMap (fun row => row.demand)))
            supply_mean :=
              round2 (meanQ (g.filterMap (fun row => row.supply))) })))
  else Except.error ()

/-- Per-region std of percentage price changes. -/
def pmVolatility (std : List ℚ → ℚ) (pp : DF) :
    Except Unit (List (String × ℚ)) :=
  if "region" ∈ pp.cols then
    Except.ok ((groupKeysStr pp.rows (fun r => r.region)).map (fun r =>
      (r, std (pctChange ((pp.rows.filter
        (fun row => row.region == some r)).filterMap
          (fun row => row.price))))))
  else Except.error ()

/-- Supply/demand balance step: the ratio column is supply/demand per
row (null when either cell is null, matching NaN propagation); regions
with ratio < 1.1 are the tight markets.  (Python division by a zero
demand gives inf, which is never < 1.1; here a zero demand gives ratio 0
by the Lean convention — the inputs used in the proofs have non-zero
demand.) -/
def pmSupplyDemand (pp : DF) : Except Unit SupplyDemandStats :=
  if "region" ∈ pp.cols then
    let ratios := pp.rows.filterMap (fun row =>
      match row.supply, row.demand with
      | some s, some d => some (s / d)
      | _, _ => none)
    let tight := (pp.rows.filter (fun row =>
      match row.supply, row.demand with
      | some s, some d => decide (s / d < 11 / 10)
      | _, _ => false)).filterMap (fun row => row.region)
    Except.ok { ratioAvg := meanQ ratios, tight_markets := tight }
  else Except.error ()

/-- Renewable-generation step. -/
def pmRenewable (rg : DF) : Except Unit RenewableStats :=
  if "capacity" ∈ rg.cols ∧ "generation" ∈ rg.cols ∧ "source" ∈ rg.cols then
    let keys := groupKeysStr rg.rows (fun r => r.src)
    Except.ok
      { generation_stats := keys.map (fun s =>
          let g := rg.rows.filter (fun row => row.src == some s)
          (s, (round2 (meanQ (g.filterMap (fun row => row.capacity))),
               round2 (meanQ (g.filterMap (fun row => row.generation))))))
        capacity_factors := keys.map (fun s =>
          let g := rg.rows.filter (fun row => row.src == some s)
          (s, meanQ (g.filterMap (fun row =>
            match row.generation, row.capacity with
            | some gen, some cap => some (gen / cap)
            | _, _ => none)))) }
  else Except.error ()

/-- The `if not power_prices.empty` block of analyze_power_markets: the
four assignments run in order into the analysis dict; the first raising
step leaves the dict as assigned so far and sets the swallowed flag. -/
def ppBlock (std : List ℚ → ℚ) (pp : DF) : PMAnalysis × Bool :=
  let a0 : PMAnalysis := {}
  if pp.rows.isEmpty then (a0, false)
  else
    match pmSummary std pp with
    | Except.error _ => (a0, true)
    | Except.ok s =>
      let a1 := { a0 with summary := some s }
      match pmRegional std pp with
      | Except.error _ => (a1, true)
      | Except.ok reg =>
        let a2 := { a1 with regional_analysis := reg }
        match pmVolatility std pp with
        | Except.error _ => (a2, true)
        | Except.ok vol =>
          let a3 := { a2 with price_volatility := vol }
          match pmSupplyDemand pp with
          | Except.error _ => (a3, true)
          | Except.ok sd => ({ a3 with supply_demand := some sd }, false)

/-- `EnergyMarketAnalyzer.analyze_power_markets` with an explicit flag
recording whether the try/except swallowed an exception.  The analysis
dict is mutated in place in the Python source, so the value returned
after a swallowed exception is whatever had been assigned up to that
point; an exception in the power-prices block skips the renewable
block. -/
def analyze_power_markets_run (std : List ℚ → ℚ) (df : DF) :
    PMAnalysis × Bool :=
  let a0 : PMAnalysis := {}
  if df.rows.isEmpty then (a0, false)
  else
    match df.filterEq "data_type" "power_prices" with
    | Except.error _ => (a0, true)
    | Except.ok pp =>
      match df.filterEq "data_type" "renewable_generation" with
      | Except.error _ => (a0, true)
      | Except.ok rg =>
        let st := ppBlock std pp
        if st.2 then st
        else if rg.rows.isEmpty then st
        else
          match pmRenewable rg with
          | Except.error _ => (st.1, true)
          | Except.ok ren => ({ st.1 with renewable_analysis := some ren }, false)

/-- The value `analyze_power_markets` actually returns. -/
def analyze_power_markets (std : List ℚ → ℚ) (df : DF) : PMAnalysis :=
  (analyze_power_markets_run std df).1

/-- One entry of analysis['extreme_weather_events']. -/
structure ExtremeEvent where
  region : Option String
  temperature : ℚ
  wind_speed : ℚ
  tsStr : Option String
deriving DecidableEq

/-- The analysis dict of analyze_weather_impact (weather_correlations is
initialised and never assigned in the source). -/
structure WIAnalysis where
  temperature_impact : List (String × ℚ) := []
  weather_correlations : List (String × ℚ) := []
  extreme_weather_events : List ExtremeEvent := []
deriving DecidableEq

/-- The fixed weather-region to market-region lookup; unmapped names
become NaN under pandas `.map`. -/
def regionMap : String → Option String
  | "New York" => some "NYISO"
  | "California" => some "CAISO"
  | "Texas" => some "ERCOT"
  | "Pennsylvania" => some "PJM"
  | _ => none

/-- Insertion sort on rationals (ascending), used by the quantile. -/
def sortQ : List ℚ → List ℚ
  | [] => []
  | x :: xs => insertQ x (sortQ xs)
where
  insertQ (x : ℚ) : List ℚ → List ℚ
    | [] => [x]
    | y :: ys => if x ≤ y then x :: y :: ys else y :: insertQ x ys

/-- `Series.quantile(0.95)` with the default linear interpolation. -/
def quantile95 (l : List ℚ) : ℚ :=
  match sortQ l with
  | [] => 0
  | x :: rest =>
    let s := x :: rest
    let h : ℚ := (95 : ℚ) / 100 * ((s.length : ℚ) - 1)
    let lo := (⌊h⌋).toNat
    let a := s.getD lo x
    let b := s.getD (lo + 1) a
    a + (h - ((⌊h⌋ : ℤ) : ℚ)) * (b - a)

/-- The per-region temperature/price correlation loop.  `pp[region]` is
selected on every iteration (KeyError when the column is absent and any
mapped region exists); `temperature`/`price` are selected only in
iterations whose sample counts are positive and equal.  The stored value
is `corr` applied to the two columns (`corr` also absorbs the
NaN-correlation-to-0.0 guard of the source). -/
def wiCorrLoop (corr : List ℚ → List ℚ → ℚ) (w pp : DF) :
    Except Unit (List (String × ℚ)) :=
  let keys := (w.rows.filterMap (fun row => row.region.bind regionMap)).dedup
  if keys.isEmpty then Except.ok []
  else if "region" ∈ pp.cols then
    let hits := keys.filter (fun r =>
      let nw := (w.rows.filter
        (fun row => (row.region.bind regionMap) == some r)).length
      let np := (pp.rows.filter (fun row => row.region == some r)).length
      decide (0 < nw) && decide (0 < np) && nw == np)
    if hits.isEmpty then Except.ok []
    else if "temperature" ∈ w.cols ∧ "price" ∈ pp.cols then
      Except.ok (hits.map (fun r =>
        (r, corr
          ((w.rows.filter (fun row =>
            (row.region.bind regionMap) == some r)).filterMap
              (fun row => row.temperature))
          ((pp.rows.filter (fun row => row.region == some r)).filterMap
            (fun row => row.price)))))
    else Except.error ()
  else Except.error ()

/-- The extreme-event loop; row cells are read by label, so a missing
wind_speed or timestamp column raises on the first event (a null cell in
a present column is carried through; the ℚ payloads substitute 0 for a
NaN temperature or wind speed, which float() would carry as NaN). -/
def wiEventLoop (w : DF) (extremes : List Row) :
    Except Unit (List ExtremeEvent) :=
  if extremes.isEmpty then Except.ok []
  else if "wind_speed" ∈ w.cols ∧ "timestamp" ∈ w.cols then
    Except.ok (extremes.map (fun row =>
      { region := row.region
        temperature := (row.temperature).getD 0
        wind_speed := (row.wind_speed).getD 0
        tsStr := row.tsStr }))
  else Except.error ()

/-- `EnergyMarketAnalyzer.analyze_weather_impact` with the
swallowed-exception flag. -/
def analyze_weather_impact_run (corr : List ℚ → List ℚ → ℚ)
    (w power : DF) : WIAnalysis × Bool :=
  let a0 : WIAnalysis := {}
  if w.rows.isEmpty || power.rows.isEmpty then (a0, false)
  else if "region" ∈ w.cols then
    match power.filterEq "data_type" "power_prices" with
    | Except.error _ => (a0, true)
    | Except.ok pp =>
      match wiCorrLoop corr w pp with
      | Except.error _ => (a0, true)
      | Except.ok tpc =>
        let a1 := { a0 with temperature_impact := tpc }
        if "temperature" ∈ w.cols then
          let thresh := quantile95 (w.rows.filterMap (fun r => r.temperature))
          let extremes := w.rows.filter (fun row =>
            match row.temperature with
            | some t => decide (thresh < t)
            | none => false)
          match wiEventLoop w extremes with
          | Except.error _ => (a1, true)
          | Except.ok evs => ({ a1 with extreme_weather_events := evs }, false)
        else (a1, true)
  else (a0, true)

/-- The value `analyze_weather_impact` actually returns. -/
def analyze_weather_impact (corr : List ℚ → List ℚ → ℚ) (w power : DF) :
    WIAnalysis :=
  (analyze_weather_impact_run corr w power).1

/-- One indicator's mean/std/min/max entry. -/
structure IndStats where
  mean : ℚ
  std : ℚ
  min : ℚ
  max : ℚ
deriving DecidableEq

/-- The analysis dict of analyze_economic_indicators. -/
structure EconAnalysis where
  commodity_trends : List (String × (ℚ × ℚ)) := []
  market_indicators : List (String × IndStats) := []
  correlations : List ((String × String) × ℚ) := []
deriving DecidableEq

def energyCommodities : List String :=
  ["crude_oil_wti", "natural_gas_henry_hub", "coal_price"]

/-- `EnergyMarketAnalyzer.analyze_economic_indicators` with the
swallowed-exception flag.  The pivot cannot raise (the default integer
index is unique), and the pairwise matrix cells are `corr` applied to
the two pivoted columns (`corr` absorbs pandas' row-index alignment of
the pivoted columns). -/
def analyze_economic_indicators_run (std : List ℚ → ℚ)
    (corr : List ℚ → List ℚ → ℚ) (df : DF) : EconAnalysis × Bool :=
  let a0 : EconAnalysis := {}
  if df.rows.isEmpty then (a0, false)
  else if "indicator" ∈ df.cols ∧ "value" ∈ df.cols then
    let keys := groupKeysStr df.rows (fun r => r.indicator)
    let groupVals := fun i =>
      (df.rows.filter (fun row => row.indicator == some i)).filterMap
        (fun row => row.value)
    let a1 := { a0 with market_indicators := keys.map (fun i =>
      let vs := groupVals i
      (i, { mean := round2 (meanQ vs), std := round2 (std vs),
            min := round2 (minQ vs), max := round2 (maxQ vs) })) }
    let erows := df.rows.filter (fun row =>
      match row.indicator with
      | some i => energyCommodities.contains i
      | none => false)
    let a2 :=
      if erows.isEmpty then a1
      else { a1 with commodity_trends :=
        (groupKeysStr erows (fun r => r.indicator)).map (fun i =>
          let vs := (erows.filter
            (fun row => row.indicator == some i)).filterMap
              (fun row => row.value)
          (i, (round2 (meanQ vs), round2 (std vs)))) }
    if keys.length ≤ 1 then (a2, false)
    else
      ({ a2 with correlations := keys.flatMap (fun i => keys.map (fun j =>
          ((i, j), round3 (corr (groupVals i) (groupVals j))))) }, false)
  else (a0, true)

/-- The value `analyze_economic_indicators` actually returns. -/
def analyze_economic_indicators (std : List ℚ → ℚ)
    (corr : List ℚ → List ℚ → ℚ) (df : DF) : EconAnalysis :=
  (analyze_economic_indicators_run std corr df).1

/-! ### The weekly workflow `run_weekly_analysis` -/

/-- `generate_claude_insights`: the model reply verbatim, or — when the
API call raised — the fallback string embedding the exception text. -/
def generate_claude_insights (res : Except String String) : String :=
  match res with
  | Except.ok insights => insights
  | Except.error e =>
      "AI analysis unavailable due to technical issues. Error: " ++ e

/-- The analysis_results dict assembled in run_weekly_analysis (a key is
present only when the corresponding dataset was loaded). -/
structure AnalysisResults where
  power_markets : Option PMAnalysis := none
  weather_impact : Option WIAnalysis := none
  economic_indicators : Option EconAnalysis := none
deriving DecidableEq

/-- `create_visualizations`: a chart per nonempty section (matplotlib
failures, which would return the charts produced so far, are not
modelled — no claim concerns them). -/
def create_visualizations (ar : AnalysisResults) : List String :=
  (match ar.power_markets with
   | some pm =>
       if pm.regional_analysis.isEmpty then []
       else ["power_market_analysis.png"]
   | none => []) ++
  (match ar.economic_indicators with
   | some ec =>
       if ec.market_indicators.isEmpty then []
       else ["economic_indicators.png"]
   | none => [])

/-- The PDF report, modelled by the content the claims mention: the
insights text rendered into its AI-analysis section and the number of
embedded charts. -/
structure PdfReport where
  insights : String
  vizCount : Nat
deriving DecidableEq

/-- `generate_pdf_report` returns the report path, or the empty string
(here `none`) when reportlab raised. -/
def generate_pdf_report (pdfOk : Bool) (insights : String)
    (viz : List String) : Option PdfReport :=
  if pdfOk then some { insights := insights, vizCount := viz.length }
  else none

/-- The item written by `update_analysis_metadata`. -/
def update_analysis_metadata_item (isoNow environment : String)
    (nowEpoch : Int) (success : Bool) (error_message : Option String) :
    Item :=
  [("data_source", Attr.s "weekly_analysis"),
   ("timestamp", Attr.s isoNow),
   ("success", Attr.b success),
   ("analysis_type", Attr.s "comprehensive_market_analysis"),
   ("environment", Attr.s environment),
   ("ttl", Attr.n (ttlOf nowEpoch))] ++
  (match error_message with
   | some e => [("error_message", Attr.s e)]
   | none => [])

/-- Environment of one weekly run. -/
structure Env where
  /-- `load_recent_data` result: combined DataFrame per source name. -/
  datasets : List (String × DF)
  /-- Outcome of the Claude API call: the reply text, or the exception
  message the call raised. -/
  claudeResult : Except String String
  /-- reportlab PDF build succeeds. -/
  pdfOk : Bool
  /-- S3 uploads in save_results_to_s3 succeed.  (A mid-sequence S3
  failure would leave earlier artifacts uploaded; modelled
  all-or-nothing, which no claim distinguishes.) -/
  s3Ok : Bool
  std : List ℚ → ℚ
  corr : List ℚ → List ℚ → ℚ
  isoNow : String
  environment : String
  nowEpoch : Int
  /-- `utcnow().strftime(%Y%m%d_%H%M%S)` used in the artifact keys. -/
  tsStamp : String

/-- Result of `run_weekly_analysis`. -/
structure WeeklyRun where
  status : String
  report : Option PdfReport
  uploads : List S3Put
  metaWrites : List Item
  insights : String

/-- `EnergyMarketAnalyzer.run_weekly_analysis`.  With data available the
run cannot raise past step 1: every later step catches its own errors
(the analyses and the insights call internally, the PDF build by
returning an empty path, the upload step by returning False), so the
completion record is written with success regardless of which steps
degraded. -/
def run_weekly_analysis (env : Env) : WeeklyRun :=
  if env.datasets.isEmpty then
    { status := "failed", report := none, uploads := [],
      metaWrites := [update_analysis_metadata_item env.isoNow
        env.environment env.nowEpoch false
        (some "Weekly analysis failed: No data available for analysis")],
      insights := "" }
  else
    let ar : AnalysisResults :=
      { power_markets := (List.lookup "lseg" env.datasets).map
          (fun df => analyze_power_markets env.std df)
        weather_impact := (List.lookup "weather" env.datasets).map
          (fun wdf => analyze_weather_impact env.corr wdf
            ((List.lookup "lseg" env.datasets).getD emptyDF))
        economic_indicators := (List.lookup "economic" env.datasets).map
          (fun edf => analyze_economic_indicators env.std env.corr edf) }
    let insights := generate_claude_insights env.claudeResult
    let viz := create_visualizations ar
    let report := generate_pdf_report env.pdfOk insights viz
    let uploads :=
      if env.s3Ok then
        [{ key := "reports/json/weekly_analysis_" ++ env.tsStamp ++ ".json",
           sse := "AES256" }] ++
        (match report with
         | some _ =>
             [{ key := "reports/pdf/weekly_report_" ++ env.tsStamp ++ ".pdf",
                sse := "AES256" }]
         | none => []) ++
        viz.map (fun v =>
          { key := "reports/visualizations/" ++ v ++ "_" ++ env.tsStamp,
            sse := "AES256" })
      else []
    { status := "success", report := report, uploads := uploads,
      metaWrites := [update_analysis_metadata_item env.isoNow
        env.environment env.nowEpoch true none],
      insights := insights }

end EnergyMarketAnalyzer

/-! ## Concrete inputs used by counterexamples and witnesses -/

/-- Stand-in for the abstract standard-deviation kernel. -/
def std0 : List ℚ → ℚ := fun _ => 0

/-- Stand-in for the abstract correlation kernel. -/
def corr0 : List ℚ → List ℚ → ℚ := fun _ _ => 0

/-- A collector run in which every source's collect call returns an
empty DataFrame. -/
def envEmptyData : DataCollector.Env :=
  { collect := fun _ => some 0
    s3Fails := fun _ => false
    metadataFails := false
    initOk := true
    year := "2026", month := "01", day := "02"
    ts := "20260102_031500"
    isoNow := "2026-01-02T03:15:00"
    nowEpoch := 1767323700
    environment := "prod" }

/-- A collector run in which the lseg source fails (collect returns
None) while the other two sources yield data. -/
def envMixed : DataCollector.Env :=
  { envEmptyData with
    collect := fun s => if s = "lseg" then none
      else if s = "weather" then some 4 else some 6 }

/-- A collector run in which lseg yields data but every DynamoDB
put_item raises. -/
def envMetaDown : DataCollector.Env :=
  { envEmptyData with
    collect := fun s => if s = "lseg" then some 11 else some 0
    metadataFails := true }

/-- A fully successful SFTP run over one file. -/
def sftpEnvOne : LSEGSFTPCollector.Env :=
  { sshConnectOk := true, openSftpOk := true
    files := ["PowerPrices_20260102.csv"]
    fileFails := fun _ => false
    rows := fun _ => 5
    y := "2026", m := "01", d := "02"
    dateStr := "2026-01-02"
    isoNow := "2026-01-02T06:00:00" }

/-- An SFTP run that finds no files for today. -/
def sftpEnvNoFiles : LSEGSFTPCollector.Env :=
  { sftpEnvOne with files := [] }

/-- An SFTP run in which the SSH connection is established but opening
the SFTP channel fails. -/
def sftpEnvLeak : LSEGSFTPCollector.Env :=
  { sftpEnvOne with openSftpOk := false }

/-- An API-handler environment whose backends all answer. -/
def apiEnvOk : APIHandler.Env :=
  { scanOk := true, queryOk := true, listOk := true
    dynamoHealthy := true, s3Healthy := true }

/-- A power-markets frame with price/demand/supply but no region
column: the summary succeeds and the regional groupby then raises. -/
def c2df : EnergyMarketAnalyzer.DF :=
  { cols := ["data_type", "price", "demand", "supply"]
    rows :=
      [{ data_type := some "power_prices", price := some 45,
         demand := some 100, supply := some 120 },
       { data_type := some "power_prices", price := some 55,
         demand := some 110, supply := some 130 }] }

/-- A complete power-markets frame (all pass steps succeed). -/
def c7df : EnergyMarketAnalyzer.DF :=
  { cols := ["data_type", "region", "price", "demand", "supply"]
    rows :=
      [{ data_type := some "power_prices", region := some "PJM",
         price := some 45, demand := some 100, supply := some 120 },
       { data_type := some "power_prices", region := some "PJM",
         price := some 55, demand := some 110, supply := some 130 },
       { data_type := some "power_prices", region := some "CAISO",
         price := some 50, demand := some 90, supply := some 135 }] }

/-- An SFTP run whose SSH connect itself fails. -/
def sftpEnvDown : LSEGSFTPCollector.Env :=
  { sftpEnvOne with sshConnectOk := false }

/-- The object-key format the specification declares for collected raw
data: `raw-data/year=YYYY/month=MM/day=DD/{source}_{timestamp}.parquet`,
read as liberally as possible (arbitrary strings for the YYYY/MM/DD and
name parts), at the character-list level. -/
def claimRawKeyFormat (k : String) : Prop :=
  ∃ y m d rest : List Char,
    k.data = ("raw-data/year=" : String).data ++
      (y ++ (("/month=" : String).data ++
        (m ++ (("/day=" : String).data ++
          (d ++ (("/" : String).data ++ rest))))))

/-- A weekly run whose model call raises. -/
def c6env : EnergyMarketAnalyzer.Env :=
  { datasets := [("lseg", c7df)]
    claudeResult := Except.error "Connection timed out"
    pdfOk := true
    s3Ok := true
    std := std0
    corr := corr0
    isoNow := "2026-01-04T02:00:00"
    environment := "prod"
    nowEpoch := 1767492000
    tsStamp := "20260104_020000" }

/-! ## Helper lemmas -/

theorem foldl_min_le (xs : List ℚ) (a : ℚ) : xs.foldl min a ≤ a := by
  induction xs generalizing a with
  | nil => simp
  | cons x xs ih => exact le_trans (ih (min a x)) (min_le_left a x)

theorem foldl_min_le_mem (xs : List ℚ) (a x : ℚ) (hx : x ∈ xs) :
    xs.foldl min a ≤ x := by
  induction xs generalizing a with
  | nil => cases hx
  | cons y ys ih =>
    rcases List.mem_cons.mp hx with h | h
    · subst h; exact le_trans (foldl_min_le ys (min a x)) (min_le_right a x)
    · exact ih (min a y) h

theorem le_foldl_max (xs : List ℚ) (a : ℚ) : a ≤ xs.foldl max a := by
  induction xs generalizing a with
  | nil => simp
  | cons x xs ih => exact le_trans (le_max_left a x) (ih (max a x))

theorem mem_le_foldl_max (xs : List ℚ) (a x : ℚ) (hx : x ∈ xs) :
    x ≤ xs.foldl max a := by
  induction xs generalizing a with
  | nil => cases hx
  | cons y ys ih =>
    rcases List.mem_cons.mp hx with h | h
    · subst h; exact le_trans (le_max_right a x) (le_foldl_max ys (max a x))
    · exact ih (max a y) h

theorem minQ_le_mem (l : List ℚ) (x : ℚ) (hx : x ∈ l) : minQ l ≤ x := by
  cases l with
  | nil => cases hx
  | cons a xs =>
    rcases List.mem_cons.mp hx with h | h
    · subst h; exact foldl_min_le xs x
    · exact foldl_min_le_mem xs a x h

theorem mem_le_maxQ (l : List ℚ) (x : ℚ) (hx : x ∈ l) : x ≤ maxQ l := by
  cases l with
  | nil => cases hx
  | cons a xs =>
    rcases List.mem_cons.mp hx with h | h
    · subst h; exact le_foldl_max xs x
    · exact mem_le_foldl_max xs a x h

theorem minQ_le_meanQ (l : List ℚ) : minQ l ≤ meanQ l := by
  cases l with
  | nil => simp [minQ, meanQ]
  | cons a xs =>
    have hlen : (0 : ℚ) < ((a :: xs).length : ℚ) := by
      exact_mod_cast Nat.succ_pos xs.length
    have hsum : ((a :: xs).length : ℚ) * minQ (a :: xs) ≤ (a :: xs).sum := by
      have := List.card_nsmul_le_sum (a :: xs) (minQ (a :: xs))
        (fun x hx => minQ_le_mem _ x hx)
      simpa [nsmul_eq_mul] using this
    rw [meanQ, le_div_iff₀ hlen]
    linarith

theorem meanQ_le_maxQ (l : List ℚ) : meanQ l ≤ maxQ l := by
  cases l with
  | nil => simp [maxQ, meanQ]
  | cons a xs =>
    have hlen : (0 : ℚ) < ((a :: xs).length : ℚ) := by
      exact_mod_cast Nat.succ_pos xs.length
    have hsum : (a :: xs).sum ≤ ((a :: xs).length : ℚ) * maxQ (a :: xs) := by
      have := List.sum_le_card_nsmul (a :: xs) (maxQ (a :: xs))
        (fun x hx => mem_le_maxQ _ x hx)
      simpa [nsmul_eq_mul] using this
    rw [meanQ, div_le_iff₀ hlen]
    linarith

theorem round2_mono {x y : ℚ} (h : x ≤ y) : round2 x ≤ round2 y := by
  unfold round2
  have hr : round (x * 100) ≤ round (y * 100) := by
    rw [round_eq, round_eq]
    exact Int.floor_le_floor (by linarith)
  have hc : ((round (x * 100) : ℤ) : ℚ) ≤ ((round (y * 100) : ℤ) : ℚ) := by
    exact_mod_cast hr
  exact (div_le_div_iff_of_pos_right (by norm_num)).mpr hc

/-- The result dict keeps the source name in every branch of
process_data_source. -/
theorem process_source_id (env : DataCollector.Env) (s : String) :
    (DataCollector.process_data_source env s).1.source = s := by
  unfold DataCollector.process_data_source
  by_cases hd : (List.lookup s DataCollector.dataSources).getD false = false
  · simp [hd, DataCollector.baseResult]
  · cases hc : env.collect s with
    | none => simp [hd, hc, DataCollector.baseResult]
    | some n =>
        simp only [hd, hc]
        split_ifs <;> simp [DataCollector.baseResult]

/-- The result dict of process_data_source does not depend on whether
the metadata write succeeds. -/
theorem process_result_indep_metadata (env : DataCollector.Env) (b : Bool)
    (s : String) :
    (DataCollector.process_data_source { env with metadataFails := b } s).1
      = (DataCollector.process_data_source env s).1 := by
  unfold DataCollector.process_data_source
  by_cases hd : (List.lookup s DataCollector.dataSources).getD false = false
  · simp [hd]
  · cases hc : env.collect s with
    | none => simp [hd, hc]
    | some n =>
        simp only [hd, hc]
        split_ifs <;> rfl

/-- The uploads of process_data_source do not depend on whether the
metadata write succeeds. -/
theorem process_uploads_indep_metadata (env : DataCollector.Env) (b : Bool)
    (s : String) :
    (DataCollector.process_data_source { env with metadataFails := b } s).2.1
      = (DataCollector.process_data_source env s).2.1 := by
  unfold DataCollector.process_data_source
  by_cases hd : (List.lookup s DataCollector.dataSources).getD false = false
  · simp [hd]
  · cases hc : env.collect s with
    | none => simp [hd, hc]
    | some n =>
        simp only [hd, hc]
        split_ifs <;> rfl

/-- Shape of the collector status code: 200 exactly when the success
count is positive, 500 exactly when it is zero. -/
theorem status_iff (k : Nat) :
    ((if 0 < k then 200 else 500) = 200 ↔ 0 < k) ∧
    ((if 0 < k then 200 else 500) = 500 ↔ k = 0) := by
  by_cases hp : 0 < k
  · rw [if_pos hp]
    exact ⟨iff_of_true rfl hp, iff_of_false (by norm_num) (by omega)⟩
  · rw [if_neg hp]
    exact ⟨iff_of_false (by norm_num) hp, iff_of_true rfl (by omega)⟩

/-- When every put_item raises, no metadata item lands, whatever else
the source run does. -/
theorem process_meta_empty (env : DataCollector.Env) (s : String)
    (h : env.metadataFails = true) :
    (DataCollector.process_data_source env s).2.2 = [] := by
  unfold DataCollector.process_data_source DataCollector.update_metadata
  by_cases hd : (List.lookup s DataCollector.dataSources).getD false = false
  · simp [hd]
  · cases hc : env.collect s with
    | none => simp [hd, hc]
    | some n =>
        simp only [hd, hc]
        split_ifs <;> simp [h]

/-- The summary stats produced by a successful pmSummary satisfy
min ≤ mean ≤ max. -/
theorem pmSummary_bounds (std : List ℚ → ℚ) (pp : EnergyMarketAnalyzer.DF)
    (s : EnergyMarketAnalyzer.SummaryStats)
    (h : EnergyMarketAnalyzer.pmSummary std pp = Except.ok s) :
    s.min_price ≤ s.avg_price ∧ s.avg_price ≤ s.max_price := by
  unfold EnergyMarketAnalyzer.pmSummary at h
  split_ifs at h
  · injection h with h
    subst h
    exact ⟨minQ_le_meanQ _, meanQ_le_maxQ _⟩

/-- Every regional entry produced by a successful pmRegional satisfies
rounded min ≤ rounded mean ≤ rounded max. -/
theorem pmRegional_bounds (std : List ℚ → ℚ) (pp : EnergyMarketAnalyzer.DF)
    (l : List (String × EnergyMarketAnalyzer.RegionStats))
    (h : EnergyMarketAnalyzer.pmRegional std pp = Except.ok l) :
    ∀ r st, (r, st) ∈ l →
      st.price_min ≤ st.price_mean ∧ st.price_mean ≤ st.price_max := by
  unfold EnergyMarketAnalyzer.pmRegional at h
  split_ifs at h
  · injection h with h
    subst h
    intro r st hm
    rw [List.mem_map] at hm
    obtain ⟨k, hk, he⟩ := hm
    have hst := congrArg Prod.snd he
    dsimp only at hst
    subst hst
    exact ⟨round2_mono (minQ_le_meanQ _), round2_mono (meanQ_le_maxQ _)⟩

/-- The min/mean/max inequalities hold of whatever the power-prices
block produces, summary and regional entries alike. -/
theorem ppBlock_bounds (std : List ℚ → ℚ) (pp : EnergyMarketAnalyzer.DF) :
    (∀ s, (EnergyMarketAnalyzer.ppBlock std pp).1.summary = some s →
      s.min_price ≤ s.avg_price ∧ s.avg_price ≤ s.max_price) ∧
    (∀ r st,
      (r, st) ∈ (EnergyMarketAnalyzer.ppBlock std pp).1.regional_analysis →
      st.price_min ≤ st.price_mean ∧ st.price_mean ≤ st.price_max) := by
  unfold EnergyMarketAnalyzer.ppBlock
  split
  · exact ⟨fun s hs => Option.noConfusion hs,
           fun r st hm => absurd hm (List.not_mem_nil _)⟩
  · split
    · exact ⟨fun s hs => Option.noConfusion hs,
             fun r st hm => absurd hm (List.not_mem_nil _)⟩
    · rename_i s1 heq1
      split
      · exact ⟨fun s hs => by
          injection hs with h
          subst h
          exact pmSummary_bounds std pp s1 heq1,
        fun r st hm => absurd hm (List.not_mem_nil _)⟩
      · rename_i reg heq2
        split
        · exact ⟨fun s hs => by
            injection hs with h
            subst h
            exact pmSummary_bounds std pp s1 heq1,
          fun r st hm => pmRegional_bounds std pp reg heq2 r st hm⟩
        · rename_i vol heq3
          split
          · exact ⟨fun s hs => by
              injection hs with h
              subst h
              exact pmSummary_bounds std pp s1 heq1,
            fun r st hm => pmRegional_bounds std pp reg heq2 r st hm⟩
          · exact ⟨fun s hs => by
              injection hs with h
              subst h
              exact pmSummary_bounds std pp s1 heq1,
            fun r st hm => pmRegional_bounds std pp reg heq2 r st hm⟩

/-! ## Claim theorems -/

/-- C1 counterexample: in a collector run in which every source yields an
empty DataFrame (and an SFTP run that lists no files), the collector
writes NO metadata record at all — not a `success=false` record as
claimed: the empty-data path of process_data_source returns before
update_metadata is reached, and the SFTP run returns before any
per-file metadata write. -/
theorem c1_no_data_counterexample :
    (DataCollector.process_data_source envEmptyData "lseg").1.success = false ∧
    (DataCollector.process_data_source envEmptyData "lseg").1.file_key = none ∧
    (DataCollector.process_data_source envEmptyData "lseg").2.2 = [] ∧
    (LSEGSFTPCollector.collect_daily_data sftpEnvNoFiles).metaWrites = [] :=
  ⟨rfl, rfl, rfl, rfl⟩

/-- C1 (amended): a collector run in which zero source records are
available produces a failure result with no object-storage key, performs
no upload, and writes NO metadata record (a `success=false` metadata
record is written only when an exception is raised during processing,
e.g. an S3 failure); the SFTP collector with an empty file listing
likewise uploads nothing and writes no metadata. -/
theorem c1_no_data_no_metadata (env : DataCollector.Env) (s : String)
    (h : env.collect s = none ∨ env.collect s = some 0) :
    (DataCollector.process_data_source env s).1.success = false ∧
    (DataCollector.process_data_source env s).1.file_key = none ∧
    (DataCollector.process_data_source env s).2.1 = [] ∧
    (DataCollector.process_data_source env s).2.2 = [] ∧
    (∀ senv : LSEGSFTPCollector.Env, senv.files = [] →
      (LSEGSFTPCollector.collect_daily_data senv).uploads = [] ∧
      (LSEGSFTPCollector.collect_daily_data senv).metaWrites = []) := by
  refine ⟨?_, ?_, ?_, ?_, ?_⟩
  all_goals first
    | (intro senv hf
       unfold LSEGSFTPCollector.collect_daily_data
       split_ifs <;> simp [hf])
    | (by_cases hd : (List.lookup s DataCollector.dataSources).getD false = false
       · simp [DataCollector.process_data_source, DataCollector.baseResult, hd]
       · rcases h with h | h <;>
           simp [DataCollector.process_data_source, DataCollector.baseResult,
             hd, h])

/-- C1 witness: the amended statement instantiated at the concrete
all-empty run. -/
theorem c1_no_data_no_metadata_witness :
    (DataCollector.process_data_source envEmptyData "lseg").1.success = false ∧
    (DataCollector.process_data_source envEmptyData "lseg").2.2 = [] ∧
    (LSEGSFTPCollector.collect_daily_data sftpEnvNoFiles).metaWrites = [] := by
  have h := c1_no_data_no_metadata envEmptyData "lseg" (Or.inr rfl)
  exact ⟨h.1, h.2.2.2.1, (h.2.2.2.2 sftpEnvNoFiles rfl).2⟩

/-- C8 counterexample: when the SSH connect succeeds but opening the
SFTP channel fails, connect_sftp raises after the SSH session is
established; the locals in collect_daily_data are still None, so the
finally block closes nothing and the SSH connection opened during the
run is still open when the run exits. -/
theorem c8_ssh_leak_counterexample :
    (LSEGSFTPCollector.collect_daily_data sftpEnvLeak).conns.sshEverOpened
      = true ∧
    (LSEGSFTPCollector.collect_daily_data sftpEnvLeak).conns.sshOpen = true :=
  ⟨rfl, rfl⟩

/-- C8 (amended): whenever connect_sftp returns (both the SSH and the
SFTP session were established), both are closed before the run exits,
whatever the later outcome; and when the SSH connect itself fails, no
connection was ever opened.  Only the intermediate state — SSH
established, SFTP channel creation failed — leaks the SSH connection. -/
theorem c8_connections_closed (env : LSEGSFTPCollector.Env) :
    (env.sshConnectOk = true → env.openSftpOk = true →
      (LSEGSFTPCollector.collect_daily_data env).conns.sshOpen = false ∧
      (LSEGSFTPCollector.collect_daily_data env).conns.sftpOpen = false) ∧
    (env.sshConnectOk = false →
      (LSEGSFTPCollector.collect_daily_data env).conns.sshEverOpened = false ∧
      (LSEGSFTPCollector.collect_daily_data env).conns.sftpEverOpened
        = false) := by
  unfold LSEGSFTPCollector.collect_daily_data
  constructor
  · intro h1 h2; simp [h1, h2]
  · intro h1; simp [h1]

/-- C8 witness: the amended statement at a fully successful run and at a
run whose connect fails. -/
theorem c8_connections_closed_witness :
    ((LSEGSFTPCollector.collect_daily_data sftpEnvOne).conns.sshOpen = false ∧
     (LSEGSFTPCollector.collect_daily_data sftpEnvOne).conns.sftpOpen
       = false) ∧
    ((LSEGSFTPCollector.collect_daily_data sftpEnvDown).conns.sshEverOpened
       = false ∧
     (LSEGSFTPCollector.collect_daily_data sftpEnvDown).conns.sftpEverOpened
       = false) :=
  ⟨(c8_connections_closed sftpEnvOne).1 rfl rfl,
   (c8_connections_closed sftpEnvDown).2 rfl⟩

/-- C3 counterexample: the single metadata record written by a
successful SFTP run has no `data_source`, no boolean `success`, no
`environment` and no `ttl` attribute (its schema is keyed by `file_id`
instead), contradicting the claimed uniform schema. -/
theorem c3_sftp_schema_counterexample :
    ((LSEGSFTPCollector.collect_daily_data sftpEnvOne).metaWrites.map
      (fun it => (it.attr "data_source", it.attr "success",
                  it.attr "environment", it.attr "ttl")))
      = [(none, none, none, none)] := by decide

/-- C3 (amended): metadata records written by the API data collector and
the weekly analyzer carry `data_source` (partition key), the ISO
timestamp, a boolean `success`, `environment` and `ttl` = 90 days ahead
in epoch seconds, with `error_message` the only conditional attribute
(the analyzer record additionally always carries `analysis_type`); the
SFTP collector's records follow a different schema — `file_id`,
`collection_date`, `s3_location`, `record_count`, `status`, `timestamp`,
`source` — with no `data_source`, `success`, `environment` or `ttl`. -/
theorem c3_metadata_schema (env : DataCollector.Env) (source : String)
    (fk : Option String) (count : Nat) (succ : Bool)
    (isoNow environment : String) (nowEpoch : Int) (err : Option String)
    (senv : LSEGSFTPCollector.Env) (f k : String) (c : Nat) :
    ((DataCollector.update_metadata_item env source fk count succ).attr
        "data_source" = some (Attr.s source) ∧
     (DataCollector.update_metadata_item env source fk count succ).attr
        "timestamp" = some (Attr.s env.isoNow) ∧
     (DataCollector.update_metadata_item env source fk count succ).attr
        "success" = some (Attr.b succ) ∧
     (DataCollector.update_metadata_item env source fk count succ).attr
        "environment" = some (Attr.s env.environment) ∧
     (DataCollector.update_metadata_item env source fk count succ).attr
        "ttl" = some (Attr.n (ttlOf env.nowEpoch)) ∧
     (DataCollector.update_metadata_item env source fk count succ).attr
        "record_count" = some (Attr.n count) ∧
     (DataCollector.update_metadata_item env source fk count succ).attr
        "error_message" = (if succ then none else
          some (Attr.s ("Collection failed for " ++ source)))) ∧
    ((EnergyMarketAnalyzer.update_analysis_metadata_item isoNow environment
        nowEpoch succ err).attr "data_source"
        = some (Attr.s "weekly_analysis") ∧
     (EnergyMarketAnalyzer.update_analysis_metadata_item isoNow environment
        nowEpoch succ err).attr "timestamp" = some (Attr.s isoNow) ∧
     (EnergyMarketAnalyzer.update_analysis_metadata_item isoNow environment
        nowEpoch succ err).attr "success" = some (Attr.b succ) ∧
     (EnergyMarketAnalyzer.update_analysis_metadata_item isoNow environment
        nowEpoch succ err).attr "analysis_type"
        = some (Attr.s "comprehensive_market_analysis") ∧
     (EnergyMarketAnalyzer.update_analysis_metadata_item isoNow environment
        nowEpoch succ err).attr "environment" = some (Attr.s environment) ∧
     (EnergyMarketAnalyzer.update_analysis_metadata_item isoNow environment
        nowEpoch succ err).attr "ttl" = some (Attr.n (ttlOf nowEpoch))) ∧
    ((LSEGSFTPCollector.update_metadata_item senv f k c).map Prod.fst =
      ["file_id", "collection_date", "s3_location", "record_count",
       "status", "timestamp", "source"]) := by
  refine ⟨⟨rfl, rfl, rfl, rfl, rfl, rfl, ?_⟩,
          ⟨rfl, rfl, rfl, rfl, rfl, rfl⟩, rfl⟩
  cases succ <;> rfl

/-- C4 counterexample: the upload performed by a successful SFTP run
uses the key `raw-data/2026/01/02/lseg_PowerPrices_20260102.parquet`,
which is not of the claimed form
`raw-data/year=YYYY/month=MM/day=DD/...` (its first path segment after
raw-data/ is a bare year, not `year=YYYY`). -/
theorem c4_sftp_key_counterexample :
    ((LSEGSFTPCollector.collect_daily_data sftpEnvOne).uploads.map
      (fun u => u.key))
      = ["raw-data/2026/01/02/lseg_PowerPrices_20260102.parquet"] ∧
    ¬ claimRawKeyFormat
        "raw-data/2026/01/02/lseg_PowerPrices_20260102.parquet" := by
  constructor
  · decide
  · rintro ⟨y, m, d, rest, h⟩
    have h14 := congrArg (List.take 14) h
    rw [show (14 : Nat) = (("raw-data/year=" : String).data).length from rfl,
        List.take_left] at h14
    exact absurd h14 (by decide)

/-- C4 (amended): every upload of the API data collector uses the
Hive-partitioned key
`raw-data/year=YYYY/month=MM/day=DD/{source}_{timestamp}.parquet` and
requests AES256 server-side encryption; every upload of the SFTP
collector also requests AES256 encryption but uses the plain-date key
`raw-data/YYYY/MM/DD/lseg_{file}.parquet` without the `year=`-style
partition names. -/
theorem c4_upload_keys_and_encryption (env : DataCollector.Env)
    (s : String) (u : S3Put) (senv : LSEGSFTPCollector.Env) (v : S3Put) :
    (u ∈ (DataCollector.process_data_source env s).2.1 →
      u.key = DataCollector.rawDataKey env.year env.month env.day s env.ts ∧
      u.sse = "AES256") ∧
    (v ∈ (LSEGSFTPCollector.collect_daily_data senv).uploads →
      (∃ f ∈ senv.files,
        v.key = LSEGSFTPCollector.sftpKey senv.y senv.m senv.d f) ∧
      v.sse = "AES256") := by
  constructor
  · intro hu
    unfold DataCollector.process_data_source at hu
    by_cases hd : (List.lookup s DataCollector.dataSources).getD false = false
    · simp [hd] at hu
    · cases hc : env.collect s with
      | none => simp [hd, hc] at hu
      | some n =>
          by_cases h0 : n = 0
          · simp [hd, hc, h0] at hu
          · by_cases hs3 : env.s3Fails s = true
            · simp [hd, hc, h0, hs3, DataCollector.update_metadata] at hu
            · simp [hd, hc, h0, hs3] at hu
              rw [hu]
              exact ⟨rfl, rfl⟩
  · intro hv
    unfold LSEGSFTPCollector.collect_daily_data at hv
    split_ifs at hv with h1 h2
    · simp at hv
    · simp at hv
    · simp only [List.mem_map] at hv
      obtain ⟨f, hf, rfl⟩ := hv
      exact ⟨⟨f, (List.mem_filter.mp hf).1, rfl⟩, rfl⟩

/-- C4 witness: the amended statement at the concrete successful runs of
both collectors. -/
theorem c4_upload_keys_and_encryption_witness :
    (({ key := "raw-data/year=2026/month=01/day=02/lseg_20260102_031500.parquet",
        sse := "AES256" } : S3Put).key
      = DataCollector.rawDataKey envMetaDown.year envMetaDown.month
          envMetaDown.day "lseg" envMetaDown.ts) ∧
    (∃ f ∈ sftpEnvOne.files,
      ({ key := "raw-data/2026/01/02/lseg_PowerPrices_20260102.parquet",
         sse := "AES256" } : S3Put).key
        = LSEGSFTPCollector.sftpKey sftpEnvOne.y sftpEnvOne.m sftpEnvOne.d
            f) := by
  have h1 := (c4_upload_keys_and_encryption envMetaDown "lseg"
    { key := "raw-data/year=2026/month=01/day=02/lseg_20260102_031500.parquet",
      sse := "AES256" } sftpEnvOne
    { key := "raw-data/2026/01/02/lseg_PowerPrices_20260102.parquet",
      sse := "AES256" }).1 (by decide)
  have h2 := (c4_upload_keys_and_encryption envMetaDown "lseg"
    { key := "raw-data/year=2026/month=01/day=02/lseg_20260102_031500.parquet",
      sse := "AES256" } sftpEnvOne
    { key := "raw-data/2026/01/02/lseg_PowerPrices_20260102.parquet",
      sse := "AES256" }).2 (by decide)
  exact ⟨h1.1, h2.1⟩

/-- C9: the handler processes every enabled source whatever the
per-source outcomes (one result per source, in configuration order),
tallies successes and sums the record counts of the successful sources,
and answers 200 exactly when at least one source succeeded and 500
exactly when none did. -/
theorem c9_aggregation_and_status (env : DataCollector.Env)
    (h : env.initOk = true) :
    ((DataCollector.lambda_handler env).1.results.map (fun x => x.source)
      = ["lseg", "weather", "economic"]) ∧
    ((DataCollector.lambda_handler env).1.successful_sources
      = (DataCollector.lambda_handler env).1.results.countP
          (fun x => x.success)) ∧
    ((DataCollector.lambda_handler env).1.total_records_collected
      = (((DataCollector.lambda_handler env).1.results.filter
          (fun x => x.success)).map (fun x => x.record_count)).sum) ∧
    ((DataCollector.lambda_handler env).1.total_sources_processed = 3) ∧
    ((DataCollector.lambda_handler env).1.statusCode = 200 ↔
      0 < (DataCollector.lambda_handler env).1.successful_sources) ∧
    ((DataCollector.lambda_handler env).1.statusCode = 500 ↔
      (DataCollector.lambda_handler env).1.successful_sources = 0) := by
  have hb : DataCollector.lambda_handler env
      = DataCollector.lambda_handler_body env := by
    unfold DataCollector.lambda_handler
    simp [h]
  rw [hb]
  refine ⟨?_, rfl, rfl, rfl, (status_iff _).1, (status_iff _).2⟩
  simp [DataCollector.lambda_handler_body, DataCollector.dataSources,
    process_source_id]

/-- C9 witness: the aggregation equations at a run in which the lseg
source fails while the other two succeed. -/
theorem c9_aggregation_and_status_witness :
    ((DataCollector.lambda_handler envMixed).1.results.map (fun x => x.source)
      = ["lseg", "weather", "economic"]) ∧
    ((DataCollector.lambda_handler envMixed).1.statusCode = 200 ↔
      0 < (DataCollector.lambda_handler envMixed).1.successful_sources) := by
  have h := c9_aggregation_and_status envMixed rfl
  exact ⟨h.1, h.2.2.2.2.1⟩

/-- C10: a metadata-store write failure is invisible in the handler
response (the response with every put_item raising equals the response
with them all landing), no metadata record is written in that case, and
in particular a source whose data was uploaded still reports
success=true while the run wrote no metadata record for it. -/
theorem c10_metadata_failure_invisible (env : DataCollector.Env) :
    ((DataCollector.lambda_handler { env with metadataFails := true }).1
      = (DataCollector.lambda_handler { env with metadataFails := false }).1) ∧
    ((DataCollector.lambda_handler { env with metadataFails := true }).2.2
      = []) ∧
    ((DataCollector.process_data_source envMetaDown "lseg").1.success
      = true ∧
     (DataCollector.process_data_source envMetaDown "lseg").2.2 = []) := by
  refine ⟨?_, ?_, rfl, rfl⟩
  · unfold DataCollector.lambda_handler
    by_cases hi : env.initOk = false
    · rw [if_pos (show ({ env with metadataFails := true } :
              DataCollector.Env).initOk = false from hi),
          if_pos (show ({ env with metadataFails := false } :
              DataCollector.Env).initOk = false from hi)]
    · rw [if_neg (show ¬ ({ env with metadataFails := true } :
              DataCollector.Env).initOk = false from hi),
          if_neg (show ¬ ({ env with metadataFails := false } :
              DataCollector.Env).initOk = false from hi)]
      unfold DataCollector.lambda_handler_body
      dsimp only
      rw [show List.map (fun r => r.1)
            (List.map (fun p => DataCollector.process_data_source
                { env with metadataFails := true } p.1)
              (List.filter (fun p => p.2) DataCollector.dataSources))
          = List.map (fun r => r.1)
            (List.map (fun p => DataCollector.process_data_source
                { env with metadataFails := false } p.1)
              (List.filter (fun p => p.2) DataCollector.dataSources)) by
        simp only [List.map_map]
        exact List.map_congr_left (fun p _ => by
          simp only [Function.comp_apply]
          rw [process_result_indep_metadata env true p.1,
              process_result_indep_metadata env false p.1])]
  · unfold DataCollector.lambda_handler
    by_cases hi : env.initOk = false
    · rw [if_pos (show ({ env with metadataFails := true } :
          DataCollector.Env).initOk = false from hi)]
    · rw [if_neg (show ¬ ({ env with metadataFails := true } :
          DataCollector.Env).initOk = false from hi)]
      unfold DataCollector.lambda_handler_body
      have hm : ∀ s, (DataCollector.process_data_source
          { env with metadataFails := true } s).2.2 = [] :=
        fun s => process_meta_empty _ s rfl
      simp [DataCollector.dataSources, hm]

/-- C2 counterexample: on a power frame carrying price/demand/supply but
no region column, the summary assignment succeeds and the regional
groupby then raises; the swallowed error returns a PARTIALLY FILLED
analysis (summary set, everything else default), which differs from the
empty-input result — so a mid-computation error is not identical to an
empty input as claimed. -/
theorem c2_error_not_empty_counterexample :
    (EnergyMarketAnalyzer.analyze_power_markets_run std0 c2df).2 = true ∧
    EnergyMarketAnalyzer.analyze_power_markets std0 c2df ≠
      EnergyMarketAnalyzer.analyze_power_markets std0
        EnergyMarketAnalyzer.emptyDF := by
  refine ⟨rfl, ?_⟩
  intro h
  have h1 : (EnergyMarketAnalyzer.analyze_power_markets std0
      c2df).summary.isSome = true := rfl
  have h2 : (EnergyMarketAnalyzer.analyze_power_markets std0
      EnergyMarketAnalyzer.emptyDF).summary.isSome = false := rfl
  rw [h, h2] at h1
  exact Bool.noConfusion h1

/-- C2 (amended): each analyzer pass swallows mid-computation errors and
returns whatever had been assigned to the analysis dict so far; on empty
input each pass returns its default empty-shaped result (with no error),
but a swallowed error may leave a partially filled result that differs
from the empty-input result. -/
theorem c2_empty_input_defaults (std : List ℚ → ℚ)
    (corr : List ℚ → List ℚ → ℚ)
    (df w p edf : EnergyMarketAnalyzer.DF) :
    (df.rows.isEmpty = true →
      EnergyMarketAnalyzer.analyze_power_markets_run std df = ({}, false)) ∧
    (w.rows.isEmpty = true ∨ p.rows.isEmpty = true →
      EnergyMarketAnalyzer.analyze_weather_impact_run corr w p
        = ({}, false)) ∧
    (edf.rows.isEmpty = true →
      EnergyMarketAnalyzer.analyze_economic_indicators_run std corr edf
        = ({}, false)) := by
  refine ⟨?_, ?_, ?_⟩
  · intro h
    unfold EnergyMarketAnalyzer.analyze_power_markets_run
    simp [h]
  · intro h
    unfold EnergyMarketAnalyzer.analyze_weather_impact_run
    rcases h with h | h <;> simp [h]
  · intro h
    unfold EnergyMarketAnalyzer.analyze_economic_indicators_run
    simp [h]

/-- C2 witness: the amended statement at empty frames. -/
theorem c2_empty_input_defaults_witness :
    EnergyMarketAnalyzer.analyze_power_markets_run std0
      EnergyMarketAnalyzer.emptyDF = ({}, false) ∧
    EnergyMarketAnalyzer.analyze_weather_impact_run corr0
      EnergyMarketAnalyzer.emptyDF EnergyMarketAnalyzer.emptyDF
      = ({}, false) ∧
    EnergyMarketAnalyzer.analyze_economic_indicators_run std0 corr0
      EnergyMarketAnalyzer.emptyDF = ({}, false) := by
  have h := c2_empty_input_defaults std0 corr0 EnergyMarketAnalyzer.emptyDF
    EnergyMarketAnalyzer.emptyDF EnergyMarketAnalyzer.emptyDF
    EnergyMarketAnalyzer.emptyDF
  exact ⟨h.1 rfl, h.2.1 (Or.inl rfl), h.2.2 rfl⟩

/-- C5 counterexample: the path /api/data-sources/recent is not one of
the five declared routes (it cannot be written as
/api/data-sources/{source}/recent for any source, by length), yet the
handler routes it to the recent-data endpoint — matched by prefix and
suffix — and answers 200, not 404 as the claim requires. -/
theorem c5_prefix_route_counterexample :
    ¬ APIHandler.declaredRoute "/api/data-sources/recent" ∧
    (APIHandler.lambda_handler apiEnvOk "GET"
      "/api/data-sources/recent").statusCode = 200 := by
  constructor
  · rintro (h | h | h | h | ⟨src, hs⟩)
    · exact absurd h (by decide)
    · exact absurd h (by decide)
    · exact absurd h (by decide)
    · exact absurd h (by decide)
    · have hl := congrArg String.length hs
      rw [String.length_append, String.length_append,
          show ("/api/data-sources/recent" : String).length = 24 from rfl,
          show ("/api/data-sources/" : String).length = 18 from rfl,
          show ("/recent" : String).length = 7 from rfl] at hl
      omega
  · decide

/-- C5 (amended): OPTIONS always yields 200 with the permissive CORS
headers; a non-OPTIONS request yields 404 (with the advertised endpoint
list) exactly when its path matches none of the four literal routes and
not the prefix/suffix pattern the code uses for the recent route — a
pattern broader than the declared template, so paths such as
/api/data-sources/recent are routed to the recent-data handler instead
of 404. -/
theorem c5_routing (env : APIHandler.Env) (m p : String) :
    (m = "OPTIONS" →
      APIHandler.lambda_handler env m p
        = APIHandler.create_response 200 APIHandler.Body.corsOk) ∧
    (m ≠ "OPTIONS" →
      (((APIHandler.lambda_handler env m p).statusCode = 404) ↔
        ¬ APIHandler.codeRouteMatched p) ∧
      (¬ APIHandler.codeRouteMatched p →
        APIHandler.lambda_handler env m p
          = APIHandler.create_response 404
              (APIHandler.Body.notFound p m
                APIHandler.availableEndpoints))) := by
  constructor
  · intro hm
    unfold APIHandler.lambda_handler
    rw [if_pos hm]
  · intro hm
    unfold APIHandler.lambda_handler
    rw [if_neg hm]
    split_ifs with h1 h2 h3 h4 h5 <;>
      refine ⟨?_, ?_⟩ <;>
      (try simp_all [APIHandler.codeRouteMatched,
        APIHandler.create_response]) <;>
      (try split_ifs) <;>
      simp_all [APIHandler.codeRouteMatched, APIHandler.create_response]

/-- C5 witness: the amended statement at an OPTIONS request and at an
unrouted GET. -/
theorem c5_routing_witness :
    (APIHandler.lambda_handler apiEnvOk "OPTIONS" "/any"
      = APIHandler.create_response 200 APIHandler.Body.corsOk) ∧
    ((APIHandler.lambda_handler apiEnvOk "GET" "/nope").statusCode
      = 404) := by
  refine ⟨(c5_routing apiEnvOk "OPTIONS" "/any").1 rfl, ?_⟩
  exact ((c5_routing apiEnvOk "GET" "/nope").2 (by decide)).1.mpr
    (by unfold APIHandler.codeRouteMatched; decide)

/-- C6: when the model call raises, the weekly run still builds the PDF
report — whose AI-analysis section is the fallback string carrying the
exception text — uploads it with encryption requested, and completes
with a success record (given that PDF rendering and the uploads
themselves do not independently fail). -/
theorem c6_model_failure_fallback (env : EnergyMarketAnalyzer.Env)
    (e : String)
    (hc : env.claudeResult = Except.error e)
    (hd : env.datasets ≠ [])
    (hp : env.pdfOk = true) (hs : env.s3Ok = true) :
    (∃ rep, (EnergyMarketAnalyzer.run_weekly_analysis env).report
        = some rep ∧
      rep.insights
        = "AI analysis unavailable due to technical issues. Error: " ++ e) ∧
    ({ key := "reports/pdf/weekly_report_" ++ env.tsStamp ++ ".pdf",
       sse := "AES256" } : S3Put)
      ∈ (EnergyMarketAnalyzer.run_weekly_analysis env).uploads ∧
    (EnergyMarketAnalyzer.run_weekly_analysis env).status = "success" ∧
    (EnergyMarketAnalyzer.run_weekly_analysis env).insights
      = "AI analysis unavailable due to technical issues. Error: " ++ e := by
  have hde : env.datasets.isEmpty = false := by
    cases hds : env.datasets with
    | nil => exact absurd hds hd
    | cons a t => rfl
  unfold EnergyMarketAnalyzer.run_weekly_analysis
  simp only [hde, Bool.false_eq_true, if_false]
  simp [hc, hp, hs, EnergyMarketAnalyzer.generate_claude_insights,
    EnergyMarketAnalyzer.generate_pdf_report]

/-- C6 witness: the statement at the concrete failing-model run. -/
theorem c6_model_failure_fallback_witness :
    (∃ rep, (EnergyMarketAnalyzer.run_weekly_analysis c6env).report
        = some rep ∧
      rep.insights = "AI analysis unavailable due to technical issues. Error: "
        ++ "Connection timed out") ∧
    ({ key := "reports/pdf/weekly_report_" ++ c6env.tsStamp ++ ".pdf",
       sse := "AES256" } : S3Put)
      ∈ (EnergyMarketAnalyzer.run_weekly_analysis c6env).uploads := by
  have h := c6_model_failure_fallback c6env "Connection timed out" rfl
    (by decide) rfl rfl
  exact ⟨h.1, h.2.1⟩

/-- C7: whenever the power-markets pass reports a summary, its reported
min_price ≤ avg_price ≤ max_price; and every region entry of the
regional analysis satisfies (rounded) price min ≤ mean ≤ max. -/
theorem c7_min_mean_max (std : List ℚ → ℚ)
    (df : EnergyMarketAnalyzer.DF) :
    (∀ s, (EnergyMarketAnalyzer.analyze_power_markets std df).summary
        = some s →
      s.min_price ≤ s.avg_price ∧ s.avg_price ≤ s.max_price) ∧
    (∀ r st, (r, st) ∈
        (EnergyMarketAnalyzer.analyze_power_markets std df).regional_analysis
      → st.price_min ≤ st.price_mean ∧ st.price_mean ≤ st.price_max) := by
  unfold EnergyMarketAnalyzer.analyze_power_markets
    EnergyMarketAnalyzer.analyze_power_markets_run
  dsimp only
  split
  · exact ⟨fun s hs => Option.noConfusion hs,
           fun r st hm => absurd hm (List.not_mem_nil _)⟩
  · split
    · exact ⟨fun s hs => Option.noConfusion hs,
             fun r st hm => absurd hm (List.not_mem_nil _)⟩
    · rename_i pp heqpp
      split
      · exact ⟨fun s hs => Option.noConfusion hs,
               fun r st hm => absurd hm (List.not_mem_nil _)⟩
      · split
        · exact ⟨fun s hs => (ppBlock_bounds std pp).1 s hs,
                 fun r st hm => (ppBlock_bounds std pp).2 r st hm⟩
        · split
          · exact ⟨fun s hs => (ppBlock_bounds std pp).1 s hs,
                   fun r st hm => (ppBlock_bounds std pp).2 r st hm⟩
          · split
            · exact ⟨fun s hs => (ppBlock_bounds std pp).1 s hs,
                     fun r st hm => (ppBlock_bounds std pp).2 r st hm⟩
            · exact ⟨fun s hs => (ppBlock_bounds std pp).1 s hs,
                     fun r st hm => (ppBlock_bounds std pp).2 r st hm⟩

/-- C7 witness: the inequalities at the summary and at the PJM entry of
the concrete frame c7df. -/
theorem c7_min_mean_max_witness :
    (EnergyMarketAnalyzer.SummaryStats.min_price
        { avg_price := meanQ [45, 55, 50], price_volatility := std0 [45, 55, 50],
          min_price := minQ [45, 55, 50], max_price := maxQ [45, 55, 50],
          total_demand := ([100, 110, 90] : List ℚ).sum,
          total_supply := ([120, 130, 135] : List ℚ).sum }
      ≤ meanQ [45, 55, 50] ∧
     meanQ [45, 55, 50] ≤ maxQ [45, 55, 50]) ∧
    (round2 (minQ [45, 55]) ≤ round2 (meanQ [45, 55]) ∧
     round2 (meanQ [45, 55]) ≤ round2 (maxQ [45, 55])) := by
  constructor
  · exact (c7_min_mean_max std0 c7df).1
      { avg_price := meanQ [45, 55, 50], price_volatility := std0 [45, 55, 50],
        min_price := minQ [45, 55, 50], max_price := maxQ [45, 55, 50],
        total_demand := ([100, 110, 90] : List ℚ).sum,
        total_supply := ([120, 130, 135] : List ℚ).sum } rfl
  · exact (c7_min_mean_max std0 c7df).2 "PJM"
      { price_mean := round2 (meanQ [45, 55]),
        price_std := round2 (std0 [45, 55]),
        price_min := round2 (minQ [45, 55]),
        price_max := round2 (maxQ [45, 55]),
        demand_mean := round2 (meanQ [100, 110]),
        supply_mean := round2 (meanQ [120, 130]) }
      (List.mem_cons_self _ _)

end NexusEna
